import Mathlib

/-!
Shallow embedding of the Locked-In browser extension (tabManager.js, the
lock-page unlock script, and task.js) and verification of its specification.

Modelling conventions:
- URLs are embedded as pre-parsed records (the browser's URL class, an
  external collaborator, does the parsing); the raw string is kept in
  the href field, the guard startsWith "http" runs on it as in the source.
- chrome.storage areas are explicit state records threaded through the
  handlers; an absent key is Option.none (read back as undefined in JS).
- JS numeric edge cases are modelled by JVal: a number, NaN, or null.
  chrome.storage JSON-serializes values, so persisting NaN stores null;
  on arithmetic, ToNumber(undefined) = NaN and ToNumber(null) = 0.
- Array.prototype.sort() on hostname strings is modelled by insertion
  sort under Lean's lexicographic order on String.
-/

namespace LockedIn

/-- A parsed URL as produced by the browser's URL class: protocol keeps the
trailing colon as in JS (for example "https:"); href is the raw string. -/
structure Url where
  protocol : String
  hostname : String
  href : String
deriving DecidableEq, Repr

/-- A browser tab as seen by the handlers: url is absent for tabs with no
committed URL (tab.url undefined or empty); title feeds distractingTabs. -/
structure Tab where
  id : Nat
  url : Option Url
  title : String
deriving DecidableEq, Repr

/-- An entry of the persisted distractingTabs list: the {url, title} pair. -/
structure TabEntry where
  url : String
  title : String
deriving DecidableEq, Repr

/-- chrome.storage.sync as used by tabManager.js: the distractingDomains
array of hostnames and the distractingTabs array of {url, title} pairs. -/
structure SyncStore where
  domains : List String
  tabs : List TabEntry
deriving DecidableEq, Repr

/-- JS Array.prototype.sort() on an array of strings: stable, ordered by
string comparison; modelled with insertion sort over Lean's String order. -/
def jsSortStrings (l : List String) : List String :=
  l.insertionSort (fun a b => a ≤ b)

/-- JS String.prototype.startsWith(p), modelled as a character-list prefix
test on the two strings. -/
def jsStartsWith (s p : String) : Bool :=
  p.data.isPrefixOf s.data

/-- saveDomainAsDistracting from tabManager.js: guard on a present URL string
starting with "http", then upsert url.hostname into distractingDomains,
push + sort when absent, skip when already included. -/
def saveDomainAsDistracting (urlString : Option Url) (domains : List String) :
    List String :=
  match urlString with
  | none => domains
  | some u =>
    if !(jsStartsWith u.href "http") then domains
    else
      let domain := u.hostname
      if domains.contains domain then domains
      else jsSortStrings (domains ++ [domain])

/-- saveTabAsDistracting from tabManager.js: same guard on tab.url, then
append {url, title} to distractingTabs unless some entry already has
this url. -/
def saveTabAsDistracting (tab : Tab) (tabs : List TabEntry) : List TabEntry :=
  match tab.url with
  | none => tabs
  | some u =>
    if !(jsStartsWith u.href "http") then tabs
    else
      let newTabInfo : TabEntry := { url := u.href, title := tab.title }
      if tabs.any (fun savedTab => savedTab.url == newTabInfo.url) then tabs
      else tabs ++ [newTabInfo]

/-- The storage effect of groupTab(tab, isProductive) from tabManager.js:
the tab-group manipulation itself touches only browser UI state; when
isProductive is false both save functions run on the sync store. -/
def groupTab (tab : Tab) (isProductive : Bool) (st : SyncStore) : SyncStore :=
  if isProductive then st
  else
    { domains := saveDomainAsDistracting tab.url st.domains
      tabs := saveTabAsDistracting tab st.tabs }

/-- The JS guard `!urlString || !urlString.startsWith("http")` of both save
functions, phrased positively: the tab has a URL that starts with "http". -/
def hasHttpUrl (t : Tab) : Bool :=
  match t.url with
  | none => false
  | some u => jsStartsWith u.href "http"

/-- chrome.runtime.getURL: resolves a path inside the extension to a
chrome-extension scheme URL. -/
def getURL (extId : String) (path : String) : String :=
  "chrome-extension://" ++ extId ++ "/" ++ path

/-- encodeURIComponent leaves ASCII alphanumerics and - _ . ! ~ * ( ) and
the apostrophe (code 39) literal; everything else is percent-encoded. -/
def isUnreserved (c : Char) : Bool :=
  c.isAlphanum || c = '-' || c = '_' || c = '.' || c = '!' || c = '~' ||
    c = '*' || c.toNat = 39 || c = '(' || c = ')'

/-- Uppercase hexadecimal digit for a value below 16. -/
def hexDigit (n : Nat) : Char :=
  if n < 10 then Char.ofNat (48 + n) else Char.ofNat (55 + n)

/-- UTF-8 bytes of one character, as numbers below 256. -/
def utf8Bytes (c : Char) : List Nat :=
  let n := c.toNat
  if n < 128 then [n]
  else if n < 2048 then [192 + n / 64, 128 + n % 64]
  else if n < 65536 then [224 + n / 4096, 128 + (n / 64) % 64, 128 + n % 64]
  else [240 + n / 262144, 128 + (n / 4096) % 64, 128 + (n / 64) % 64,
        128 + n % 64]

/-- JS encodeURIComponent: unreserved characters pass through, every other
character contributes the percent-encoding of its UTF-8 bytes. -/
def encodeURIComponent (s : String) : String :=
  String.mk (s.data.foldr
    (fun c acc =>
      if isUnreserved c then c :: acc
      else (utf8Bytes c).foldr
        (fun b a => '%' :: hexDigit (b / 16) :: hexDigit (b % 16) :: a) acc)
    [])

/-- The chrome.tabs.onActivated listener of tabManager.js (the Lock Gate):
returns the URL passed to chrome.tabs.update when a redirect is issued,
none otherwise. session is the set of domains whose session key
unlocked_<domain> is true in chrome.storage.session. -/
def onActivated (extId : String) (domains session : List String) (tab : Tab) :
    Option String :=
  match tab.url with
  | none => none
  | some u =>
    if u.protocol = "chrome-extension:" then none
    else if !(domains.contains u.hostname) then none
    else if session.contains u.hostname then none
    else some (getURL extId "html/locked.html" ++ "?url=" ++
      encodeURIComponent u.href)

/-- The lock page's mutable UI fields: the PIN input value and the error
message element's text. -/
structure UnlockPage where
  inputValue : String
  errorMessage : String
deriving DecidableEq, Repr

/-- Result of one click on the unlock button: the session-unlock set, the
navigation target assigned to window.location.href (none when no
navigation happens), and the page's UI state. -/
structure UnlockOutcome where
  session : List String
  navigate : Option String
  page : UnlockPage
deriving DecidableEq, Repr

/-- JS strict equality between the PIN input's string value and the stored
unlockPin, which is undefined when the key was never set: a string is
never strictly equal to undefined. -/
def jsStrictEq (a : String) (b : Option String) : Bool :=
  match b with
  | some s => a == s
  | none => false

/-- Setting unlocked_<domain> to true in chrome.storage.session, modelled on
the set of unlocked domains. -/
def sessionSet (domain : String) (session : List String) : List String :=
  if session.contains domain then session else domain :: session

/-- The unlock button click handler of the lock page: on an exact match with
the stored unlockPin it records the session unlock for the target URL's
hostname and navigates to the target; on a mismatch it shows the error
text and clears the input, leaving the session store untouched. -/
def unlockClick (enteredPin : String) (unlockPin : Option String)
    (targetUrl : Url) (session : List String) (page : UnlockPage) :
    UnlockOutcome :=
  if jsStrictEq enteredPin unlockPin then
    { session := sessionSet targetUrl.hostname session
      navigate := some targetUrl.href
      page := page }
  else
    { session := session
      navigate := none
      page := { inputValue := ""
                errorMessage := "Incorrect PIN. Please try again." } }

/-- A JS value held in chrome.storage.local for the timer keys: a finite
number, NaN (result of arithmetic on undefined), or null (what JSON
serialization stores in place of NaN). -/
inductive JVal where
  | num (n : Int)
  | nan
  | null
deriving DecidableEq, Repr

/-- ToNumber of a storage read (none is an absent key, read as undefined):
undefined and NaN convert to NaN (no number), null converts to 0. -/
def toNumber : Option JVal → Option Int
  | some (JVal.num n) => some n
  | some JVal.null => some (0 : Int)
  | some JVal.nan => none
  | none => none

/-- JS subtraction on read values: NaN when either side has no number. -/
def jsub (a b : Option JVal) : JVal :=
  match toNumber a, toNumber b with
  | some x, some y => JVal.num (x - y)
  | _, _ => JVal.nan

/-- JS addition on read values: NaN when either side has no number. -/
def jadd (a b : Option JVal) : JVal :=
  match toNumber a, toNumber b with
  | some x, some y => JVal.num (x + y)
  | _, _ => JVal.nan

/-- chrome.storage.local.set JSON-serializes its value: NaN is stored as
null; numbers and null are stored as themselves. -/
def storeVal (v : JVal) : JVal :=
  match v with
  | JVal.nan => JVal.null
  | w => w

/-- The timer-relevant state: the StartingTime and RemainingTime keys of
chrome.storage.local, and the LockedInSession alarm (the `when` value it
was created with, none when cleared or never created). -/
structure LocalStore where
  StartingTime : Option JVal
  RemainingTime : Option JVal
  alarm : Option JVal
deriving DecidableEq, Repr

/-- The three timer commands carried by chrome.runtime messages. -/
inductive Msg where
  | startTimer (duration : Int)
  | pauseTimer
  | continueTimer
deriving DecidableEq, Repr

/-- The chrome.runtime.onMessage listener of tabManager.js, with now the
value of Date.now() when the handler runs. START_TIMER creates the alarm
at now + duration and persists StartingTime = now (it does not write
RemainingTime). PAUSE_TIMER clears the alarm and persists
RemainingTime - (now - StartingTime). CONTINUE_TIMER re-creates the
alarm at now + RemainingTime and persists StartingTime = now. -/
def onMessage (now : Int) (msg : Msg) (st : LocalStore) : LocalStore :=
  match msg with
  | Msg.startTimer duration =>
    { st with
      alarm := some (jadd (some (JVal.num now)) (some (JVal.num duration)))
      StartingTime := some (storeVal (JVal.num now)) }
  | Msg.pauseTimer =>
    let elapsedTime := jsub (some (JVal.num now)) st.StartingTime
    { st with
      alarm := none
      RemainingTime := some (storeVal (jsub st.RemainingTime (some elapsedTime))) }
  | Msg.continueTimer =>
    { st with
      alarm := some (jadd (some (JVal.num now)) st.RemainingTime)
      StartingTime := some (storeVal (JVal.num now)) }

/-- A sequence of timer commands, each tagged with the Date.now() at which
its handler runs, applied in order. -/
def runMsgs (evs : List (Int × Msg)) (st : LocalStore) : LocalStore :=
  evs.foldl (fun s e => onMessage e.1 e.2 s) st

/-- A fresh chrome.storage.local: no timer key was ever written, no alarm
exists. -/
def emptyLocal : LocalStore :=
  { StartingTime := none, RemainingTime := none, alarm := none }

/-- A subtask of the task page: an object with a single text field. -/
structure Subtask where
  text : String
deriving DecidableEq, Repr

/-- In-memory task of task.js: the plain Task variant carries text and
subtasks, the TimedTask variant adds a deadline string. -/
inductive TaskNode where
  | task (text : String) (subtasks : List Subtask)
  | timed (text : String) (subtasks : List Subtask) (deadline : String)
deriving DecidableEq, Repr

/-- A persisted task record as stored under the tasks key: own enumerable
fields of the class instance; deadline is present exactly for TimedTask
instances. -/
structure StoredTask where
  text : String
  subtasks : List Subtask
  deadline : Option String
deriving DecidableEq, Repr

/-- Serialization of one in-memory task into its stored record: a Task has
no deadline field, a TimedTask stores its deadline. -/
def serializeTask : TaskNode → StoredTask
  | TaskNode.task t s => { text := t, subtasks := s, deadline := none }
  | TaskNode.timed t s d => { text := t, subtasks := s, deadline := some d }

/-- SaveTasks from task.js: persists the full task list. -/
def SaveTasks (taskData : List TaskNode) : List StoredTask :=
  taskData.map serializeTask

/-- The storage-restore mapper in init of task.js: a record whose deadline
field is not undefined becomes a TimedTask, any other becomes a Task. -/
def restoreTask (t : StoredTask) : TaskNode :=
  match t.deadline with
  | some d => TaskNode.timed t.text t.subtasks d
  | none => TaskNode.task t.text t.subtasks

/-- Restoring the tasks key (none when the key is absent, read back as
result.tasks undefined, defaulted to the empty array). -/
def restoreTasks (stored : Option (List StoredTask)) : List TaskNode :=
  (stored.getD []).map restoreTask

/-- The removeBtn click handler of task.js: taskData.splice(tIndex, 1). -/
def removeTaskAt (taskData : List TaskNode) (tIndex : Nat) : List TaskNode :=
  taskData.eraseIdx tIndex

/-- C5: under the precondition that StartingTime and RemainingTime hold
numbers s and r, PAUSE clears the alarm and persists
RemainingTime = r - (now - s); no floor at zero is applied, so the stored
value is negative whenever now - s exceeds r. -/
theorem pause_subtracts_elapsed (now s r : Int) (st : LocalStore)
    (hs : st.StartingTime = some (JVal.num s))
    (hr : st.RemainingTime = some (JVal.num r)) :
    onMessage now Msg.pauseTimer st =
      { st with
        alarm := none
        RemainingTime := some (JVal.num (r - (now - s))) } := by
  simp [onMessage, jsub, toNumber, storeVal, hs, hr]

/-- Witness for C5 at a PAUSE issued 5000 ms after a start whose stored
remaining budget was 1000 ms: the persisted RemainingTime is -4000,
which is negative. -/
theorem pause_subtracts_elapsed_witness :
    onMessage 5000 Msg.pauseTimer
      { StartingTime := some (JVal.num 0)
        RemainingTime := some (JVal.num 1000)
        alarm := some (JVal.num 1000) } =
      { StartingTime := some (JVal.num 0)
        RemainingTime := some (JVal.num (1000 - (5000 - 0)))
        alarm := none } ∧
    (1000 - (5000 - 0) : Int) < 0 :=
  ⟨pause_subtracts_elapsed 5000 0 1000 _ rfl rfl, by decide⟩

/-- C1 counterexample: from a fresh store, START(5000) at time 0 followed by
PAUSE at the same instant persists RemainingTime = null (START never
writes RemainingTime, so PAUSE computes undefined - 0 = NaN, stored as
null), not 5000. -/
theorem start_pause_counterexample :
    (runMsgs [(0, Msg.startTimer 5000), (0, Msg.pauseTimer)]
        emptyLocal).RemainingTime = some JVal.null ∧
    (runMsgs [(0, Msg.startTimer 5000), (0, Msg.pauseTimer)]
        emptyLocal).RemainingTime ≠ some (JVal.num 5000) := by
  decide

/-- C1 amended: START persists only StartingTime, so START(5000) followed
immediately by PAUSE leaves RemainingTime at whatever numeric value r was
already stored (null when nothing was stored); CONTINUE on a store whose
RemainingTime is a number r re-creates the alarm at now + r and persists
StartingTime = now. -/
theorem start_pause_continue_amended (t u r : Int) (st : LocalStore)
    (hr : st.RemainingTime = some (JVal.num r)) :
    (runMsgs [(t, Msg.startTimer 5000), (t, Msg.pauseTimer)]
        st).RemainingTime = some (JVal.num r) ∧
    (∀ st2 : LocalStore, st2.RemainingTime = some (JVal.num r) →
      (onMessage u Msg.continueTimer st2).alarm = some (JVal.num (u + r)) ∧
      (onMessage u Msg.continueTimer st2).StartingTime =
        some (JVal.num u)) := by
  constructor
  · simp [runMsgs, onMessage, jsub, jadd, toNumber, storeVal, hr]
  · intro st2 h2
    simp [onMessage, jadd, toNumber, storeVal, h2]

/-- Witness for amended C1 with r = 5000 already stored, the START/PAUSE
pair at time 0, and CONTINUE at time 7. -/
theorem start_pause_continue_amended_witness :
    (runMsgs [(0, Msg.startTimer 5000), (0, Msg.pauseTimer)]
        ⟨none, some (JVal.num 5000), none⟩).RemainingTime =
      some (JVal.num 5000) ∧
    ((onMessage 7 Msg.continueTimer
        ⟨none, some (JVal.num 5000), none⟩).alarm =
      some (JVal.num (7 + 5000)) ∧
     (onMessage 7 Msg.continueTimer
        ⟨none, some (JVal.num 5000), none⟩).StartingTime =
      some (JVal.num 7)) :=
  ⟨(start_pause_continue_amended 0 7 5000
      (⟨none, some (JVal.num 5000), none⟩ : LocalStore) rfl).1,
   (start_pause_continue_amended 0 7 5000
      (⟨none, some (JVal.num 5000), none⟩ : LocalStore) rfl).2
     (⟨none, some (JVal.num 5000), none⟩ : LocalStore) rfl⟩

/-- C2 counterexample: from a fresh store, the command sequence START(5000),
PAUSE, CONTINUE (all at time 0), then PAUSE at time 100 persists
RemainingTime = -100, a negative value (the first PAUSE stores null for
NaN, CONTINUE restarts, and the second PAUSE computes 0 - 100). -/
theorem remaining_nonneg_counterexample :
    (runMsgs [(0, Msg.startTimer 5000), (0, Msg.pauseTimer),
        (0, Msg.continueTimer), (100, Msg.pauseTimer)]
        emptyLocal).RemainingTime = some (JVal.num (-100)) ∧
    (-100 : Int) < 0 := by
  decide

/-- C2 amended: a timer command keeps the persisted RemainingTime a
nonnegative number only under the extra condition that a PAUSE arrives no
later than conceptual expiry (now - startingTime ≤ remainingTime); the
code enforces no floor at zero, so without that condition RemainingTime
can become negative. -/
theorem remaining_nonneg_amended (msg : Msg) (now s r : Int) (st : LocalStore)
    (hs : st.StartingTime = some (JVal.num s))
    (hr : st.RemainingTime = some (JVal.num r))
    (h0 : 0 ≤ r)
    (hp : msg = Msg.pauseTimer → now - s ≤ r) :
    ∃ r2 : Int, (onMessage now msg st).RemainingTime = some (JVal.num r2) ∧
      0 ≤ r2 := by
  cases msg with
  | startTimer d => exact ⟨r, by simp [onMessage, hr], h0⟩
  | pauseTimer =>
    refine ⟨r - (now - s), ?_, by have := hp rfl; omega⟩
    simp [onMessage, jsub, toNumber, storeVal, hs, hr]
  | continueTimer => exact ⟨r, by simp [onMessage, hr], h0⟩

/-- Witness for amended C2: a PAUSE at time 3 with StartingTime 0 and
RemainingTime 5 satisfies the timing condition and keeps the stored value
nonnegative. -/
theorem remaining_nonneg_amended_witness :
    (0 : Int) ≤ 5 ∧ (3 - 0 : Int) ≤ 5 ∧
    ∃ r2 : Int,
      (onMessage 3 Msg.pauseTimer
        ⟨some (JVal.num 0), some (JVal.num 5), none⟩).RemainingTime =
        some (JVal.num r2) ∧ 0 ≤ r2 :=
  ⟨by decide, by decide,
   remaining_nonneg_amended Msg.pauseTimer 3 0 5 _ rfl rfl (by decide)
     (fun _ => by decide)⟩

/-- C8: a tab whose URL has the extension's own chrome-extension scheme is
never redirected by the Lock Gate, whatever the distracting-domain
registry and the session-unlock set contain. -/
theorem self_pages_never_locked (extId : String)
    (domains session : List String) (tab : Tab) (u : Url)
    (hu : tab.url = some u)
    (hp : u.protocol = "chrome-extension:") :
    onActivated extId domains session tab = none := by
  simp [onActivated, hu, hp]

/-- Witness for C8: an internal page whose hostname is even listed as
distracting is not redirected. -/
theorem self_pages_never_locked_witness :
    onActivated "abc" ["example.com"] []
      { id := 1
        url := some
          { protocol := "chrome-extension:"
            hostname := "example.com"
            href := "chrome-extension://abc/html/locked.html" }
        title := "locked" } = none :=
  self_pages_never_locked "abc" ["example.com"] [] _ _ rfl rfl

/-- C10: for a tab with no URL, or a URL not starting with "http", marking
it distracting leaves both sync-storage lists untouched: groupTab changes
nothing and each save function returns its input store. -/
theorem non_http_untouched (tab : Tab) (st : SyncStore)
    (h : hasHttpUrl tab = false) :
    groupTab tab false st = st ∧
    saveDomainAsDistracting tab.url st.domains = st.domains ∧
    saveTabAsDistracting tab st.tabs = st.tabs := by
  rcases htab : tab.url with _ | u
  · simp [groupTab, saveDomainAsDistracting, saveTabAsDistracting, htab]
  · have hh : jsStartsWith u.href "http" = false := by
      simpa [hasHttpUrl, htab] using h
    simp [groupTab, saveDomainAsDistracting, saveTabAsDistracting, htab, hh]

/-- Witness for C10: a tab with no URL leaves a nonempty store unchanged. -/
theorem non_http_untouched_witness :
    groupTab { id := 1, url := none, title := "new tab" } false
        { domains := ["x.com"], tabs := [] } =
      { domains := ["x.com"], tabs := [] } ∧
    saveDomainAsDistracting (Tab.url { id := 1, url := none, title := "new tab" })
        ["x.com"] = ["x.com"] ∧
    saveTabAsDistracting { id := 1, url := none, title := "new tab" } [] = [] :=
  non_http_untouched _ _ rfl

/-- C7: persisting the task list and reloading it is the identity: every
stored record with a deadline field is rebuilt as the TimedTask variant
and every record without one as the plain Task variant, with text,
subtasks and deadline preserved. -/
theorem tasks_roundtrip :
    (∀ l : List TaskNode, restoreTasks (some (SaveTasks l)) = l) ∧
    (∀ s : StoredTask,
      (∀ d, s.deadline = some d →
        restoreTask s = TaskNode.timed s.text s.subtasks d) ∧
      (s.deadline = none →
        restoreTask s = TaskNode.task s.text s.subtasks)) := by
  constructor
  · intro l
    show List.map restoreTask (List.map serializeTask l) = l
    rw [List.map_map]
    have h : restoreTask ∘ serializeTask = id :=
      funext fun t => by cases t <;> rfl
    rw [h, List.map_id]
  · intro s
    constructor
    · intro d hd
      simp [restoreTask, hd]
    · intro hd
      simp [restoreTask, hd]

/-- Witness for C7 on a concrete list with one plain and one timed task,
plus one stored record carrying a deadline. -/
theorem tasks_roundtrip_witness :
    restoreTasks (some (SaveTasks
        [TaskNode.task "write" [],
         TaskNode.timed "ship" [{ text := "pack" }] "2025-01-01"])) =
      [TaskNode.task "write" [],
       TaskNode.timed "ship" [{ text := "pack" }] "2025-01-01"] ∧
    restoreTask { text := "ship", subtasks := [], deadline := some "2025-01-01" } =
      TaskNode.timed "ship" [] "2025-01-01" :=
  ⟨tasks_roundtrip.1 _, (tasks_roundtrip.2 _).1 "2025-01-01" rfl⟩

/-- C9: for an index i below the list's length, the removeBtn handler
removes exactly the task at i (the result is the prefix before i followed
by the suffix after i, so relative order is preserved) and the persisted
list has length n - 1. -/
theorem removeTask_spec (l : List TaskNode) (i : Nat) (h : i < l.length) :
    removeTaskAt l i = l.take i ++ l.drop (i + 1) ∧
    (removeTaskAt l i).length = l.length - 1 ∧
    (SaveTasks (removeTaskAt l i)).length = l.length - 1 := by
  have hlen : (l.eraseIdx i).length + 1 = l.length :=
    List.length_eraseIdx_add_one h
  refine ⟨List.eraseIdx_eq_take_drop_succ l i, ?_, ?_⟩ <;>
    simp only [SaveTasks, List.length_map, removeTaskAt] <;> omega

/-- Witness for C9: deleting index 1 of a three-task list keeps tasks 0 and
2 in order and yields length 2. -/
theorem removeTask_spec_witness :
    1 < ([TaskNode.task "a" [], TaskNode.task "b" [],
          TaskNode.task "c" []] : List TaskNode).length ∧
    (removeTaskAt [TaskNode.task "a" [], TaskNode.task "b" [],
        TaskNode.task "c" []] 1 =
      ([TaskNode.task "a" [], TaskNode.task "b" [],
        TaskNode.task "c" []] : List TaskNode).take 1 ++
      ([TaskNode.task "a" [], TaskNode.task "b" [],
        TaskNode.task "c" []] : List TaskNode).drop 2 ∧
     (removeTaskAt [TaskNode.task "a" [], TaskNode.task "b" [],
        TaskNode.task "c" []] 1).length = 3 - 1 ∧
     (SaveTasks (removeTaskAt [TaskNode.task "a" [], TaskNode.task "b" [],
        TaskNode.task "c" []] 1)).length = 3 - 1) :=
  ⟨by decide, removeTask_spec _ 1 (by decide)⟩

/-- Membership in the result of a session-unlock write. -/
theorem sessionSet_contains (d : String) (session : List String) :
    (sessionSet d session).contains d = true := by
  by_cases h : session.contains d <;> simp_all [sessionSet]

/-- C4: with a stored unlockPin, a click with the exact same PIN records the
session unlock for the target URL's hostname and navigates the browser to
the target; a click with a different PIN shows the error text, clears the
input field, records no session unlock, and navigates nowhere — nothing
else changes, so every attempt is independent. -/
theorem unlock_flow (pin stored : String) (target : Url)
    (session : List String) (page : UnlockPage) :
    (pin = stored →
      (unlockClick pin (some stored) target session page).session.contains
          target.hostname = true ∧
      (unlockClick pin (some stored) target session page).navigate =
        some target.href) ∧
    (pin ≠ stored →
      (unlockClick pin (some stored) target session page).page.errorMessage =
        "Incorrect PIN. Please try again." ∧
      (unlockClick pin (some stored) target session page).page.inputValue =
        "" ∧
      (unlockClick pin (some stored) target session page).session = session ∧
      (unlockClick pin (some stored) target session page).navigate = none) := by
  constructor
  · intro he
    subst he
    refine ⟨?_, ?_⟩
    · simpa [unlockClick, jsStrictEq] using
        sessionSet_contains target.hostname session
    · simp [unlockClick, jsStrictEq]
  · intro hne
    simp [unlockClick, jsStrictEq, hne]

/-- Witness for C4: a matching attempt with PIN 1234 unlocks example.com and
navigates; a mismatched attempt with PIN 0000 shows the error, clears the
input and leaves the session empty. -/
theorem unlock_flow_witness :
    ((unlockClick "1234" (some "1234")
        { protocol := "https:", hostname := "example.com"
          href := "https://example.com/x" } []
        { inputValue := "1234", errorMessage := "" }).session.contains
        "example.com" = true ∧
     (unlockClick "1234" (some "1234")
        { protocol := "https:", hostname := "example.com"
          href := "https://example.com/x" } []
        { inputValue := "1234", errorMessage := "" }).navigate =
       some "https://example.com/x") ∧
    ((unlockClick "0000" (some "1234")
        { protocol := "https:", hostname := "example.com"
          href := "https://example.com/x" } []
        { inputValue := "0000", errorMessage := "" }).page.errorMessage =
       "Incorrect PIN. Please try again." ∧
     (unlockClick "0000" (some "1234")
        { protocol := "https:", hostname := "example.com"
          href := "https://example.com/x" } []
        { inputValue := "0000", errorMessage := "" }).page.inputValue = "" ∧
     (unlockClick "0000" (some "1234")
        { protocol := "https:", hostname := "example.com"
          href := "https://example.com/x" } []
        { inputValue := "0000", errorMessage := "" }).session = [] ∧
     (unlockClick "0000" (some "1234")
        { protocol := "https:", hostname := "example.com"
          href := "https://example.com/x" } []
        { inputValue := "0000", errorMessage := "" }).navigate = none) :=
  ⟨(unlock_flow "1234" "1234" _ [] _).1 rfl,
   (unlock_flow "0000" "1234" _ [] _).2 (by decide)⟩

/-- When its hostname is already present, saveDomainAsDistracting leaves the
list unchanged. -/
theorem saveDomain_mem_id (u : Url) (l : List String)
    (hhttp : jsStartsWith u.href "http" = true) (hm : u.hostname ∈ l) :
    saveDomainAsDistracting (some u) l = l := by
  simp [saveDomainAsDistracting, hhttp, hm]

/-- The core upsert facts for saveDomainAsDistracting on a sorted,
duplicate-free list: the hostname is a member afterwards and the list
stays sorted and duplicate-free. -/
theorem saveDomain_upsert (u : Url) (l : List String)
    (hhttp : jsStartsWith u.href "http" = true)
    (hsorted : List.Sorted (fun a b : String => a ≤ b) l)
    (hnodup : l.Nodup) :
    u.hostname ∈ saveDomainAsDistracting (some u) l ∧
    List.Sorted (fun a b : String => a ≤ b)
      (saveDomainAsDistracting (some u) l) ∧
    (saveDomainAsDistracting (some u) l).Nodup := by
  by_cases hm : u.hostname ∈ l
  · rw [saveDomain_mem_id u l hhttp hm]
    exact ⟨hm, hsorted, hnodup⟩
  · have hred : saveDomainAsDistracting (some u) l =
        jsSortStrings (l ++ [u.hostname]) := by
      simp [saveDomainAsDistracting, hhttp, hm]
    have hperm : List.Perm (jsSortStrings (l ++ [u.hostname]))
        (l ++ [u.hostname]) :=
      List.perm_insertionSort _ _
    rw [hred]
    refine ⟨hperm.mem_iff.2 (by simp), List.sorted_insertionSort _ _, ?_⟩
    exact hperm.nodup_iff.2 (by simp [List.nodup_append, hnodup, hm])

/-- C6: marking a tab with an http(s) URL on hostname d as distracting puts
d into the distractingDomains list, keeps the list sorted and
duplicate-free (given it was), and doing it a second time leaves exactly
one entry for d. -/
theorem groupTab_marks_domain (tab : Tab) (u : Url) (st : SyncStore)
    (hu : tab.url = some u)
    (hhttp : jsStartsWith u.href "http" = true)
    (hsorted : List.Sorted (fun a b : String => a ≤ b) st.domains)
    (hnodup : st.domains.Nodup) :
    u.hostname ∈ (groupTab tab false st).domains ∧
    List.Sorted (fun a b : String => a ≤ b) (groupTab tab false st).domains ∧
    (groupTab tab false st).domains.Nodup ∧
    (groupTab tab false (groupTab tab false st)).domains.count u.hostname
      = 1 := by
  have hbase : (groupTab tab false st).domains =
      saveDomainAsDistracting (some u) st.domains := by
    simp [groupTab, hu]
  obtain ⟨hmem, hsort2, hnodup2⟩ :=
    saveDomain_upsert u st.domains hhttp hsorted hnodup
  rw [hbase]
  refine ⟨hmem, hsort2, hnodup2, ?_⟩
  have htwice : (groupTab tab false (groupTab tab false st)).domains =
      saveDomainAsDistracting (some u) (groupTab tab false st).domains := by
    simp [groupTab, hu]
  rw [htwice, hbase, saveDomain_mem_id u _ hhttp hmem]
  exact List.count_eq_one_of_mem hnodup2 hmem

/-- Witness for C6: marking https example.com/x distracting on an empty
store registers example.com once, sorted and duplicate-free, and marking
it again keeps a single entry. -/
theorem groupTab_marks_domain_witness :
    List.Sorted (fun a b : String => a ≤ b)
      (SyncStore.domains { domains := [], tabs := [] }) ∧
    ("example.com" ∈ (groupTab
        { id := 1
          url := some { protocol := "https:", hostname := "example.com"
                        href := "https://example.com/x" }
          title := "Example" } false { domains := [], tabs := [] }).domains ∧
     List.Sorted (fun a b : String => a ≤ b)
       (groupTab
        { id := 1
          url := some { protocol := "https:", hostname := "example.com"
                        href := "https://example.com/x" }
          title := "Example" } false { domains := [], tabs := [] }).domains ∧
     (groupTab
        { id := 1
          url := some { protocol := "https:", hostname := "example.com"
                        href := "https://example.com/x" }
          title := "Example" } false { domains := [], tabs := [] }).domains.Nodup ∧
     (groupTab
        { id := 1
          url := some { protocol := "https:", hostname := "example.com"
                        href := "https://example.com/x" }
          title := "Example" } false
        (groupTab
          { id := 1
            url := some { protocol := "https:", hostname := "example.com"
                          href := "https://example.com/x" }
            title := "Example" } false
          { domains := [], tabs := [] })).domains.count "example.com" = 1) :=
  ⟨by simp,
   groupTab_marks_domain
     { id := 1
       url := some { protocol := "https:", hostname := "example.com"
                     href := "https://example.com/x" }
       title := "Example" } _ { domains := [], tabs := [] } rfl (by decide)
     (by simp) (by simp)⟩

/-- C3: on activation of a tab whose hostname is registered as distracting
and not session-unlocked, the Lock Gate rewrites the tab to the internal
lock page with the original URL as the url query parameter; after a
successful PIN match for that hostname, activating any tab on the same
hostname in that session yields no redirect; activating a tab whose
hostname is not registered yields no redirect. -/
theorem lock_gate_spec (extId : String) (domains session : List String)
    (tab : Tab) (u : Url)
    (hu : tab.url = some u)
    (hp : u.protocol ≠ "chrome-extension:")
    (hm : u.hostname ∈ domains)
    (hs : u.hostname ∉ session) :
    onActivated extId domains session tab =
      some (getURL extId "html/locked.html" ++ "?url=" ++
        encodeURIComponent u.href) ∧
    (∀ (pin : String) (target : Url) (page : UnlockPage) (tab2 : Tab)
        (u2 : Url), target.hostname = u.hostname → tab2.url = some u2 →
      u2.hostname = u.hostname →
      onActivated extId domains
        (unlockClick pin (some pin) target session page).session tab2 =
        none) ∧
    (∀ (tab3 : Tab) (u3 : Url), tab3.url = some u3 →
      u3.hostname ∉ domains →
      onActivated extId domains session tab3 = none) := by
  refine ⟨?_, ?_, ?_⟩
  · simp [onActivated, hu, hp, hm, hs]
  · intro pin target page tab2 u2 htgt htab2 hh2
    have hsession : (unlockClick pin (some pin) target session page).session =
        sessionSet target.hostname session := by
      simp [unlockClick, jsStrictEq]
    have hcontain :
        (sessionSet target.hostname session).contains u2.hostname = true := by
      rw [hh2, ← htgt]
      exact sessionSet_contains target.hostname session
    by_cases hproto : u2.protocol = "chrome-extension:"
    · simp [onActivated, htab2, hproto]
    · have hmem2 : u2.hostname ∈ sessionSet target.hostname session := by
        simpa using hcontain
      simp [onActivated, htab2, hproto, hsession, hmem2]
  · intro tab3 u3 htab3 hm3
    by_cases hproto : u3.protocol = "chrome-extension:"
    · simp [onActivated, htab3, hproto]
    · simp [onActivated, htab3, hproto, hm3]

/-- Witness for C3 with registry consisting of example.com and an empty
session: https example.com/x is redirected to the lock page; after the
PIN match, https example.com/about is not redirected; https other.com is
never redirected. -/
theorem lock_gate_spec_witness :
    onActivated "abc" ["example.com"] []
      { id := 1
        url := some { protocol := "https:", hostname := "example.com"
                      href := "https://example.com/x" }
        title := "Example" } =
      some (getURL "abc" "html/locked.html" ++ "?url=" ++
        encodeURIComponent "https://example.com/x") ∧
    onActivated "abc" ["example.com"]
      (unlockClick "1234" (some "1234")
        { protocol := "https:", hostname := "example.com"
          href := "https://example.com/x" } []
        { inputValue := "1234", errorMessage := "" }).session
      { id := 2
        url := some { protocol := "https:", hostname := "example.com"
                      href := "https://example.com/about" }
        title := "About" } = none ∧
    onActivated "abc" ["example.com"] []
      { id := 3
        url := some { protocol := "https:", hostname := "other.com"
                      href := "https://other.com/" }
        title := "Other" } = none :=
  ⟨(lock_gate_spec "abc" ["example.com"] []
      { id := 1
        url := some { protocol := "https:", hostname := "example.com"
                      href := "https://example.com/x" }
        title := "Example" } _ rfl (by decide) (by decide) (by decide)).1,
   (lock_gate_spec "abc" ["example.com"] []
      { id := 1
        url := some { protocol := "https:", hostname := "example.com"
                      href := "https://example.com/x" }
        title := "Example" } _ rfl (by decide) (by decide) (by decide)).2.1
     "1234" _ _
     { id := 2
       url := some { protocol := "https:", hostname := "example.com"
                     href := "https://example.com/about" }
       title := "About" } _ rfl rfl rfl,
   (lock_gate_spec "abc" ["example.com"] []
      { id := 1
        url := some { protocol := "https:", hostname := "example.com"
                      href := "https://example.com/x" }
        title := "Example" } _ rfl (by decide) (by decide) (by decide)).2.2
     { id := 3
       url := some { protocol := "https:", hostname := "other.com"
                     href := "https://other.com/" }
       title := "Other" } _ rfl (by decide)⟩

end LockedIn
